import Mathlib

/-!
Verification of the `useElementOnScreen` hook from `pure-react-lazyload`
(src/index.js), embedded shallowly in Lean 4.

The hook holds a reference slot (`ref`, initially null) and a boolean
visibility flag (`isVisible`, initially false).  An effect destructures the
options record with defaults (`root = null`, `rootMargin = "0px"`,
`threshold = 0.75`, remaining fields collected into `rest`), and, when the
reference slot holds an element, creates an `IntersectionObserver` with the
object literal `\x7b root, rootMargin, threshold, rest \x7d` and observes the
element; otherwise it logs a warning.  The callback takes the first record of
a delivered batch and writes its `isIntersecting` field into the flag, or
logs a warning when the batch is empty.  The cleanup returned by the effect
refers to an identifier `observer`; in the source that binding is declared
with `const` inside the `if` branch of the effect body, so the cleanup
closure has no binding for it in scope, and evaluating
`observer.unobserve(ref.current)` throws a `ReferenceError` before any
platform call is made.  The embedding models that throw explicitly.
-/

/-- An opaque renderable element; identity is all the code inspects. -/
structure Elem where
  id : Nat
deriving DecidableEq, Repr

/-- A JavaScript value as far as the options record is concerned.  Objects
are association lists of string keys to values; only identity and shape are
used by the code, which passes every value through unchanged. -/
inductive JsValue where
  | null : JsValue
  | bool : Bool → JsValue
  | num : ℚ → JsValue
  | str : String → JsValue
  | elem : Elem → JsValue
  | obj : List (String × JsValue) → JsValue

/-- One intersection record delivered by the platform; the code reads only
its `isIntersecting` field. -/
structure Entry where
  isIntersecting : Bool
deriving DecidableEq, Repr

/-- A runtime error of the host language.  The only error the source can
raise is the unresolved identifier `observer` in the effect cleanup. -/
inductive JsError where
  | referenceErrorObserverNotDefined : JsError
deriving DecidableEq, Repr

/-- An active platform observer: created by `new IntersectionObserver` and
attached to its single target by `observer.observe`.  `opts` is the options
object passed at creation. -/
structure Observer where
  id : Nat
  opts : List (String × JsValue)
  target : Elem

/-- The state of one tracker instance together with the platform-side
resources it owns: the reference slot (`ref.current`), the visibility flag
(`isVisible` state), the observers created and not yet released, a counter
of `unobserve`/`disconnect` calls actually issued to the platform, the id
for the next observer, and the warnings written to the console. -/
structure World where
  refCurrent : Option Elem
  isVisible : Bool
  activeObservers : List Observer
  unobserveCalls : Nat
  nextId : Nat
  warnings : List String

/-- The state when the hook body first runs: `useRef(null)` and
`useState(false)`; no observer exists and nothing has been logged. -/
def initialWorld : World :=
  { refCurrent := none
    isVisible := false
    activeObservers := []
    unobserveCalls := 0
    nextId := 0
    warnings := [] }

/-- The pair the hook returns to the consumer: `[ref, isVisible]`. -/
def hookReturn (w : World) : Option Elem × Bool :=
  (w.refCurrent, w.isVisible)

/-- The default parameter `options = \x7b\x7d`: calling the hook with no
argument supplies the empty record. -/
def hookOptions (arg : Option (List (String × JsValue))) : List (String × JsValue) :=
  arg.getD []

/-- First-match lookup of a key in a JavaScript object, as property access
and destructuring read it. -/
def lookupField : List (String × JsValue) → String → Option JsValue
  | [], _ => none
  | (k, v) :: fields, key => if k = key then some v else lookupField fields key

/-- The destructuring `root = null` in the effect: the `root` field of the
options, or `null` when absent. -/
def destructuredRoot (options : List (String × JsValue)) : JsValue :=
  (lookupField options "root").getD JsValue.null

/-- The destructuring `rootMargin = '0px'`. -/
def destructuredRootMargin (options : List (String × JsValue)) : JsValue :=
  (lookupField options "rootMargin").getD (JsValue.str "0px")

/-- The destructuring `threshold = 0.75`. -/
def destructuredThreshold (options : List (String × JsValue)) : JsValue :=
  (lookupField options "threshold").getD (JsValue.num (3 / 4))

/-- The rest pattern `...rest`: every field of the options other than the
three destructured keys. -/
def restOptions (options : List (String × JsValue)) : List (String × JsValue) :=
  options.filter fun kv =>
    kv.1 != "root" && kv.1 != "rootMargin" && kv.1 != "threshold"

/-- The object literal `\x7b root, rootMargin, threshold, rest \x7d` passed to
`new IntersectionObserver`: the three destructured values at top level and
the collected extras as one nested object under the key `rest`. -/
def observerOptions (options : List (String × JsValue)) : List (String × JsValue) :=
  [("root", destructuredRoot options),
   ("rootMargin", destructuredRootMargin options),
   ("threshold", destructuredThreshold options),
   ("rest", JsValue.obj (restOptions options))]

/-- `callbackFunction`: `const [entry] = entries` takes the first element of
the batch; when present, `setIsVisible(entry.isIntersecting)`; when the
batch is empty, `console.warn` and the state is untouched. -/
def callbackFunction (entries : List Entry) (w : World) : World :=
  match entries with
  | entry :: _ => { w with isVisible := entry.isIntersecting }
  | [] => { w with warnings := w.warnings ++ ["useElementOnScreen: entry not provided"] }

/-- The effect body: destructure the options; if `ref.current` holds an
element, `new IntersectionObserver(callbackFunction, options)` followed by
`observer.observe(ref.current)` — modelled as one active observer attached
to that element — otherwise `console.warn`.  No branch can throw, so the
error component is always `none`. -/
def effectBody (options : List (String × JsValue)) (w : World) :
    World × Option JsError :=
  match w.refCurrent with
  | some el =>
      ({ w with
          activeObservers := w.activeObservers ++
            [{ id := w.nextId, opts := observerOptions options, target := el }]
          nextId := w.nextId + 1 }, none)
  | none =>
      ({ w with warnings := w.warnings ++ ["useElementOnScreen: no ref.current found"] }, none)

/-- The cleanup returned by the effect.  When `ref.current` holds an
element the source evaluates `observer.unobserve(ref.current)`, but the
identifier `observer` is block-scoped inside the `if` branch of the effect
body and is not in scope in the cleanup closure (the module is strict and
no enclosing scope defines it), so the lookup throws a `ReferenceError`
before any member access or platform call happens: the world is unchanged
and no observer is released.  When `ref.current` is null, `console.warn`
runs and nothing else happens. -/
def effectCleanup (w : World) : World × Option JsError :=
  match w.refCurrent with
  | some _ => (w, some JsError.referenceErrorObserverNotDefined)
  | none =>
      ({ w with warnings := w.warnings ++ ["useElementOnScreen: no ref.current found"] }, none)

/-- The platform operation `unobserve`/`disconnect` on an observer: removes
it from the active set and counts one release call.  The source-level
cleanup never reaches this operation (the throw above precedes it); it is
the call the effect cleanup is documented to make. -/
def platformRelease (obsId : Nat) (w : World) : World :=
  { w with
      activeObservers := w.activeObservers.filter fun o => o.id != obsId
      unobserveCalls := w.unobserveCalls + 1 }

/-- A configuration change: React runs the cleanup of the previous effect
and then the body of the new one.  An exception thrown by a cleanup during
the commit is caught by React (reported towards an error boundary), and the
mount of the replacement effect still runs in that commit; the error is
surfaced alongside the resulting state. -/
def rebind (options : List (String × JsValue)) (w : World) :
    World × Option JsError :=
  match effectCleanup w with
  | (w₁, some e) => ((effectBody options w₁).1, some e)
  | (w₁, none) => ((effectBody options w₁).1, (effectBody options w₁).2)

/-- The consumer attaches the reference slot to a rendered element. -/
def attachRef (el : Elem) (w : World) : World :=
  { w with refCurrent := some el }

/-- The consumer detaches the reference slot (the element unmounted). -/
def detachRef (w : World) : World :=
  { w with refCurrent := none }

/-- The platform delivers a batch of intersection records through one of
its observers, invoking the callback the observer was created with.  Only
an observer that is still active delivers; a released observer delivers
nothing. -/
def deliver (obsId : Nat) (entries : List Entry) (w : World) : World :=
  if w.activeObservers.any (fun o => o.id = obsId) then callbackFunction entries w else w

/-- A tracker whose consumer attached an element and whose effect then ran
once with the empty options record: exactly one observer (id 0) is active. -/
def mountedWorld : World :=
  (effectBody [] (attachRef (Elem.mk 0) initialWorld)).1

/-- A reconfiguration of `mountedWorld`: the consumer re-renders with a
changed `threshold`. -/
def reboundRun : World × Option JsError :=
  rebind [("threshold", JsValue.num (1 / 2))] mountedWorld

/-- Steps of a binding before any callback delivery: the consumer attaching
or detaching the slot, the effect body running, the cleanup running, or a
reconfiguration.  Delivery (`deliver`) is deliberately excluded. -/
inductive PreDeliveryStep : World → World → Prop where
  | attach (el : Elem) (w : World) : PreDeliveryStep w (attachRef el w)
  | detach (w : World) : PreDeliveryStep w (detachRef w)
  | mount (options : List (String × JsValue)) (w : World) :
      PreDeliveryStep w (effectBody options w).1
  | cleanup (w : World) : PreDeliveryStep w (effectCleanup w).1
  | reconfigure (options : List (String × JsValue)) (w : World) :
      PreDeliveryStep w (rebind options w).1

/-- Worlds reachable from the initial state without any callback delivery. -/
inductive PreDeliveryReachable : World → Prop where
  | init : PreDeliveryReachable initialWorld
  | step {w w' : World} : PreDeliveryReachable w → PreDeliveryStep w w' →
      PreDeliveryReachable w'

theorem effectBody_fst_isVisible (options : List (String × JsValue)) (w : World) :
    (effectBody options w).1.isVisible = w.isVisible := by
  unfold effectBody
  cases w.refCurrent <;> rfl

theorem effectCleanup_fst_isVisible (w : World) :
    (effectCleanup w).1.isVisible = w.isVisible := by
  unfold effectCleanup
  cases w.refCurrent <;> rfl

theorem rebind_fst_isVisible (options : List (String × JsValue)) (w : World) :
    (rebind options w).1.isVisible = w.isVisible := by
  unfold rebind
  rcases h : effectCleanup w with ⟨w₁, e⟩
  have hv : w₁.isVisible = w.isVisible := by
    have := effectCleanup_fst_isVisible w
    rw [h] at this
    exact this
  cases e <;> simp [effectBody_fst_isVisible, hv]

/-- C1: the claim says every exit of an active binding with an element
attached runs the cleanup without error and releases the observer exactly
once.  On the code, with an element attached, the cleanup throws a
ReferenceError (the identifier `observer` is not in scope in the cleanup
closure), the active observer set is unchanged, and zero `unobserve` or
`disconnect` calls are issued: the observer is released zero times, not
once. -/
theorem cleanup_with_element_throws_and_releases_nothing :
    (effectCleanup mountedWorld).2 = some JsError.referenceErrorObserverNotDefined
    ∧ (effectCleanup mountedWorld).1 = mountedWorld
    ∧ (effectCleanup mountedWorld).1.unobserveCalls = 0
    ∧ ((effectCleanup mountedWorld).1.activeObservers.map Observer.id) = [0] :=
  ⟨rfl, rfl, rfl, rfl⟩

/-- C2: the claim says at most one observer is active per tracker at any
time, the old one being removed before the new one is created on
reconfiguration.  On the code, reconfiguring a mounted tracker leaves the
old observer active (the cleanup throws before releasing it) while the new
effect creates a second one: two observers, ids 0 and 1, are simultaneously
active, and the cleanup error is surfaced. -/
theorem rebind_leaves_two_active_observers :
    ((reboundRun.1).activeObservers.map Observer.id) = [0, 1]
    ∧ reboundRun.2 = some JsError.referenceErrorObserverNotDefined
    ∧ (reboundRun.1).unobserveCalls = 0 :=
  ⟨rfl, rfl, rfl⟩

/-- C3: the claim says the flag only ever reflects the most recent callback
of the currently active observer, a released observer never updating it.
On the code, after reconfiguration the prior binding observer (id 0,
created with the default threshold 0.75) is still active because the
cleanup threw before releasing it, and a delivery through it flips the flag
to true even though the current binding observer is the one with id 1 and
threshold 0.5. -/
theorem stale_observer_still_updates_flag :
    (reboundRun.1).isVisible = false
    ∧ (deliver 0 [{ isIntersecting := true }] reboundRun.1).isVisible = true
    ∧ ((reboundRun.1).activeObservers.map fun o => lookupField o.opts "threshold") =
        [some (JsValue.num (3 / 4)), some (JsValue.num (1 / 2))] :=
  ⟨rfl, rfl, rfl⟩

/-- C4: for every non-empty batch, the flag is set to the `isIntersecting`
value of the first record, and the records after the first have no
influence: the resulting state is identical whatever the tail is. -/
theorem callback_uses_only_first_entry (entry : Entry) (tail₁ tail₂ : List Entry)
    (w : World) :
    (callbackFunction (entry :: tail₁) w).isVisible = entry.isIntersecting
    ∧ callbackFunction (entry :: tail₁) w = callbackFunction (entry :: tail₂) w :=
  ⟨rfl, rfl⟩

/-- C5: a delivery with an empty record set leaves the flag (and every
other piece of tracker state) unchanged and appends the warning; the
callback is total, so no error reaches the consumer. -/
theorem empty_delivery_preserves_flag (w : World) :
    (callbackFunction [] w).isVisible = w.isVisible
    ∧ (callbackFunction [] w).warnings =
        w.warnings ++ ["useElementOnScreen: entry not provided"]
    ∧ (callbackFunction [] w).refCurrent = w.refCurrent
    ∧ (callbackFunction [] w).activeObservers = w.activeObservers :=
  ⟨rfl, rfl, rfl, rfl⟩

/-- C6: the options object handed to the observer constructor carries
`root` (or null), `rootMargin` (or "0px"), `threshold` (or 0.75) at top
level, and every remaining field of the configuration as a single nested
object under the key `rest`; its top-level keys are exactly those four, so
the extras are not spread flat. -/
theorem observer_options_shape (options : List (String × JsValue)) :
    lookupField (observerOptions options) "root" =
      some ((lookupField options "root").getD JsValue.null)
    ∧ lookupField (observerOptions options) "rootMargin" =
      some ((lookupField options "rootMargin").getD (JsValue.str "0px"))
    ∧ lookupField (observerOptions options) "threshold" =
      some ((lookupField options "threshold").getD (JsValue.num (3 / 4)))
    ∧ lookupField (observerOptions options) "rest" =
      some (JsValue.obj (options.filter fun kv =>
        kv.1 != "root" && kv.1 != "rootMargin" && kv.1 != "threshold"))
    ∧ (observerOptions options).map Prod.fst =
      ["root", "rootMargin", "threshold", "rest"] :=
  ⟨rfl, rfl, rfl, rfl, rfl⟩

/-- C7: in every world reachable before any callback delivery — whatever
the configurations used along the way — the visibility flag the hook
returns is false. -/
theorem flag_false_before_any_delivery (w : World) (h : PreDeliveryReachable w) :
    (hookReturn w).2 = false := by
  induction h with
  | init => rfl
  | step _ s ih =>
      cases s with
      | attach el w => exact ih
      | detach w => exact ih
      | mount options w => rw [hookReturn, effectBody_fst_isVisible]; exact ih
      | cleanup w => rw [hookReturn, effectCleanup_fst_isVisible]; exact ih
      | reconfigure options w => rw [hookReturn, rebind_fst_isVisible]; exact ih

/-- Witness for C7: a concrete pre-delivery run (attach an element, run the
effect) returns a false flag. -/
theorem flag_false_before_any_delivery_witness :
    (hookReturn (effectBody [] (attachRef (Elem.mk 0) initialWorld)).1).2 = false :=
  flag_false_before_any_delivery _
    (PreDeliveryReachable.step
      (PreDeliveryReachable.step PreDeliveryReachable.init
        (PreDeliveryStep.attach (Elem.mk 0) initialWorld))
      (PreDeliveryStep.mount [] (attachRef (Elem.mk 0) initialWorld)))

/-- C8: when teardown runs while the reference slot is empty, the cleanup
only appends the warning: no release call is issued, the active observer
set is untouched, and the error component is none. -/
theorem teardown_without_element (w : World) (h : w.refCurrent = none) :
    effectCleanup w =
      ({ w with warnings := w.warnings ++ ["useElementOnScreen: no ref.current found"] },
        none)
    ∧ (effectCleanup w).1.unobserveCalls = w.unobserveCalls
    ∧ (effectCleanup w).1.activeObservers = w.activeObservers := by
  unfold effectCleanup
  rw [h]
  exact ⟨rfl, rfl, rfl⟩

/-- Witness for C8: teardown of the initial, unattached tracker. -/
theorem teardown_without_element_witness :
    effectCleanup initialWorld =
      ({ initialWorld with
          warnings := initialWorld.warnings ++ ["useElementOnScreen: no ref.current found"] },
        none)
    ∧ (effectCleanup initialWorld).1.unobserveCalls = initialWorld.unobserveCalls
    ∧ (effectCleanup initialWorld).1.activeObservers = initialWorld.activeObservers :=
  teardown_without_element initialWorld rfl

/-- C9: when the effect runs while the reference slot is empty, no observer
is created, the warning is appended, the tracker stays unbound (slot still
empty, observer set unchanged), and the error component is none. -/
theorem effect_without_element (options : List (String × JsValue)) (w : World)
    (h : w.refCurrent = none) :
    effectBody options w =
      ({ w with warnings := w.warnings ++ ["useElementOnScreen: no ref.current found"] },
        none)
    ∧ (effectBody options w).1.activeObservers = w.activeObservers
    ∧ (effectBody options w).1.refCurrent = none
    ∧ (effectBody options w).1.isVisible = w.isVisible := by
  unfold effectBody
  rw [h]
  exact ⟨rfl, rfl, rfl, rfl⟩

/-- Witness for C9: the effect running on the initial, unattached tracker
with the empty options record. -/
theorem effect_without_element_witness :
    effectBody [] initialWorld =
      ({ initialWorld with
          warnings := initialWorld.warnings ++ ["useElementOnScreen: no ref.current found"] },
        none)
    ∧ (effectBody [] initialWorld).1.activeObservers = initialWorld.activeObservers
    ∧ (effectBody [] initialWorld).1.refCurrent = none
    ∧ (effectBody [] initialWorld).1.isVisible = initialWorld.isVisible :=
  effect_without_element [] initialWorld rfl

/-- C10: calling the hook with no argument supplies the empty options
record via the default parameter, so the observer options are exactly the
defaults with an empty nested rest object, the effect behaves identically
on every state, and the returned pair is the same. -/
theorem no_argument_equals_empty_options :
    hookOptions none = hookOptions (some [])
    ∧ observerOptions (hookOptions none) =
        [("root", JsValue.null), ("rootMargin", JsValue.str "0px"),
         ("threshold", JsValue.num (3 / 4)), ("rest", JsValue.obj [])]
    ∧ (∀ w : World, effectBody (hookOptions none) w = effectBody (hookOptions (some [])) w)
    ∧ hookReturn initialWorld = (none, false) :=
  ⟨rfl, rfl, fun _ => rfl, rfl⟩
